import Mathlib

/-
Verification of the clinical-intelligence longitudinal-risk frontend.

Shallow embedding of the algorithmic parts of the repository:
  * calculateRiskScore        (frontend/src/context/PatientContext.tsx)
  * getRiskWeight             (frontend/src/components/patient/RiskIndicators.tsx)
  * calculateVelocity         (RiskVelocityBadge helper)
  * TimelineChart trend logic (first/last value, percent change, arrow)
  * AlertContext setFeedback / acknowledgeAlert / dismissAlert
  * the AlertManager state machine (modelled from the design document,
    since only its trigger pseudocode is present in the repository)

Clinical measurements are JavaScript numbers in the source; they are
modelled as rationals, and the integer-valued risk score as an integer.
-/

/-- Discrete risk bucket, the RiskLevel union type of the frontend. -/
inductive RiskLevel
  | low
  | medium
  | high
  | critical
deriving DecidableEq, Repr

/-- A min/max band, the normalRange field of vitals and labs. -/
structure NormalRange where
  lo : ℚ
  hi : ℚ
deriving DecidableEq, Repr

/-- A vital reading; only the fields read by calculateRiskScore are kept. -/
structure VitalReading where
  value : ℚ
  normalRange : NormalRange
deriving DecidableEq, Repr

/-- A lab result; only the fields read by calculateRiskScore are kept. -/
structure LabResult where
  value : ℚ
  normalRange : NormalRange
deriving DecidableEq, Repr

/-- The out-of-range test used on each vital and lab:
value < normalRange.min or value > normalRange.max. -/
def isAbnormal (value : ℚ) (range : NormalRange) : Bool :=
  decide (value < range.lo) || decide (value > range.hi)

/-- The Determine-level block of calculateRiskScore: critical from 80, high
from 60, medium from 40, low below. -/
def riskLevelOfScore (score : ℤ) : RiskLevel :=
  if score ≥ 80 then RiskLevel.critical
  else if score ≥ 60 then RiskLevel.high
  else if score ≥ 40 then RiskLevel.medium
  else RiskLevel.low

/-- calculateRiskScore from PatientContext.tsx: base 20, +15 per abnormal
vital, +20 per abnormal lab, capped at 100; level from riskLevelOfScore. -/
def calculateRiskScore (vitals : List VitalReading) (labs : List LabResult) :
    ℤ × RiskLevel :=
  let base : ℤ := 20
  let afterVitals :=
    vitals.foldl (fun s v => if isAbnormal v.value v.normalRange then s + 15 else s) base
  let afterLabs :=
    labs.foldl (fun s l => if isAbnormal l.value l.normalRange then s + 20 else s) afterVitals
  let score := min 100 afterLabs
  (score, riskLevelOfScore score)

/-- The boundary table asserted by the specification, on the 0-100 scale:
LOW [0,30), MEDIUM [30,50), HIGH [50,70), CRITICAL [70,100], lower bounds
inclusive.  Written from the claim, to be compared with the code. -/
def specRiskLevelTable (score : ℤ) : RiskLevel :=
  if score < 30 then RiskLevel.low
  else if score < 50 then RiskLevel.medium
  else if score < 70 then RiskLevel.high
  else RiskLevel.critical

/-- getRiskWeight from RiskIndicators.tsx: low 1, medium 2, high 3, critical 4. -/
def getRiskWeight (level : RiskLevel) : ℤ :=
  match level with
  | RiskLevel.low => 1
  | RiskLevel.medium => 2
  | RiskLevel.high => 3
  | RiskLevel.critical => 4

/-- One entry of the risk-score history fed to calculateVelocity. -/
structure RiskPoint where
  score : ℚ
  timestamp : ℤ
deriving DecidableEq, Repr

/-- The RiskVelocity union type of the RiskVelocityBadge module; it has no
unknown member. -/
inductive RiskVelocity
  | stable
  | improving
  | slowly_worsening
  | rapid_deterioration
deriving DecidableEq, Repr

/-- The VelocityCategory union type of RiskVelocityIndicator.tsx, which also
carries an unknown member. -/
inductive VelocityCategory
  | stable
  | improving
  | slowly_worsening
  | rapid_deterioration
  | unknown
deriving DecidableEq, Repr

/-- The name-preserving inclusion of the badge categories into the indicator
categories, as the shared string vocabulary of the two modules. -/
def toVelocityCategory (v : RiskVelocity) : VelocityCategory :=
  match v with
  | RiskVelocity.stable => VelocityCategory.stable
  | RiskVelocity.improving => VelocityCategory.improving
  | RiskVelocity.slowly_worsening => VelocityCategory.slowly_worsening
  | RiskVelocity.rapid_deterioration => VelocityCategory.rapid_deterioration

/-- calculateVelocity from the RiskVelocityBadge module: histories shorter
than 2 give stable; otherwise average the consecutive deltas of the last
(up to) five scores and compare against 0.1, 0.03 and -0.03. -/
def calculateVelocity (riskHistory : List RiskPoint) : RiskVelocity :=
  if riskHistory.length < 2 then RiskVelocity.stable
  else
    let recent := riskHistory.drop (riskHistory.length - 5)
    let changes := List.zipWith (fun a b => b.score - a.score) recent recent.tail
    let avgChange := changes.sum / (changes.length : ℚ)
    if avgChange > 1/10 then RiskVelocity.rapid_deterioration
    else if avgChange > 3/100 then RiskVelocity.slowly_worsening
    else if avgChange < -(3/100) then RiskVelocity.improving
    else RiskVelocity.stable

/-- The average of the consecutive deltas of the last at most five scores,
written from the claim over a bare score list. -/
def specAvgChange (scores : List ℚ) : ℚ :=
  let lastFive := scores.drop (scores.length - 5)
  let deltas := List.zipWith (fun a b => b - a) lastFive lastFive.tail
  deltas.sum / (deltas.length : ℚ)

/-- The velocity classification asserted by the specification, written from
the claim, to be compared with calculateVelocity on histories of length
at least 2. -/
def specVelocityClass (scores : List ℚ) : RiskVelocity :=
  let avg := specAvgChange scores
  if avg > 1/10 then RiskVelocity.rapid_deterioration
  else if 3/100 < avg ∧ avg ≤ 1/10 then RiskVelocity.slowly_worsening
  else if avg < -(3/100) then RiskVelocity.improving
  else RiskVelocity.stable

/-- A calendar date at the month granularity used by the PRD trend series. -/
structure ChartDate where
  year : ℤ
  month : ℤ
deriving DecidableEq, Repr

/-- A point of the TimelineChart data array; the chart only reads date and
value. -/
structure DataPoint where
  date : ChartDate
  value : ℚ
deriving DecidableEq, Repr

/-- The trend direction vocabulary of the frontend (up, down and a neutral
member that the specification calls FLAT). -/
inductive TrendDirection
  | up
  | down
  | flat
deriving DecidableEq, Repr

/-- TimelineChart firstValue: the first value of the data array, 0 when the
array is empty (the JavaScript "data[0]?.value or 0" access). -/
def firstValue (data : List DataPoint) : ℚ :=
  (data.head?.map DataPoint.value).getD 0

/-- TimelineChart lastValue: the last value of the data array, 0 when the
array is empty. -/
def lastValue (data : List DataPoint) : ℚ :=
  (data.getLast?.map DataPoint.value).getD 0

/-- TimelineChart change: percent change guarded by the truthiness test on
firstValue, so a zero first value yields 0.  The UI then formats this value
to one decimal place for display. -/
def percentChange (data : List DataPoint) : ℚ :=
  if firstValue data = 0 then 0
  else (lastValue data - firstValue data) / firstValue data * 100

/-- TimelineChart isIncreasing: lastValue strictly greater than firstValue. -/
def isIncreasing (data : List DataPoint) : Bool :=
  decide (lastValue data > firstValue data)

/-- The arrow rendered by the TimelineChart header: up when increasing,
down in every other case; the chart never renders a flat arrow. -/
def timelineArrow (data : List DataPoint) : TrendDirection :=
  if isIncreasing data then TrendDirection.up else TrendDirection.down

/-- The trend direction asserted by the specification: the sign of
lastValue minus firstValue, flat when the two are equal.  Written from the
claim, to be compared with timelineArrow. -/
def specDirection (data : List DataPoint) : TrendDirection :=
  if lastValue data > firstValue data then TrendDirection.up
  else if lastValue data < firstValue data then TrendDirection.down
  else TrendDirection.flat

/-- Months elapsed since year 0 for a month-granularity date. -/
def monthIndex (d : ChartDate) : ℤ :=
  12 * d.year + d.month

/-- Modelled from the spec: duration_months of the TrendExtractor, whose
implementation is not in the repository sources - the elapsed time between
the earliest and the latest reading in whole months. -/
def durationMonths (data : List DataPoint) : ℤ :=
  match data.head?, data.getLast? with
  | some a, some b => monthIndex b.date - monthIndex a.date
  | _, _ => 0

/-- Whether one consecutive step moves in the given overall direction. -/
def stepMatches (dir : TrendDirection) (a b : ℚ) : Bool :=
  match dir with
  | TrendDirection.up => decide (a < b)
  | TrendDirection.down => decide (b < a)
  | TrendDirection.flat => decide (a = b)

/-- Modelled from the spec: persistence of the TrendExtractor, whose
implementation is not in the repository sources - true iff every
consecutive pair moves in the same direction as the overall trend. -/
def persistence (data : List DataPoint) : Bool :=
  let vals := data.map DataPoint.value
  (List.zipWith (stepMatches (specDirection data)) vals vals.tail).all id

/-- The PRD example series 110 (Jan-2023), 118 (Jul-2023), 126 (Jan-2024),
142 (Jul-2024). -/
def prdSeries : List DataPoint :=
  [⟨⟨2023, 1⟩, 110⟩, ⟨⟨2023, 7⟩, 118⟩, ⟨⟨2024, 1⟩, 126⟩, ⟨⟨2024, 7⟩, 142⟩]

/-- Status of a frontend alert (AlertContext). -/
inductive AlertStatus
  | active
  | acknowledged
  | dismissed
deriving DecidableEq, Repr

/-- Clinician feedback attached to an alert. -/
inductive Feedback
  | useful
  | notUseful
deriving DecidableEq, Repr

/-- An alert of the frontend AlertContext, with the fields of the mock data. -/
structure FrontAlert where
  id : String
  patientId : String
  patientName : String
  time : String
  severity : RiskLevel
  title : String
  explanation : String
  drivers : List (String × String)
  status : AlertStatus
  feedback : Option Feedback
  acknowledgedBy : Option String
  acknowledgedAt : Option String
deriving DecidableEq, Repr

/-- setFeedback from AlertContext: map over the alerts, replacing the
feedback field of the alerts whose id matches. -/
def setFeedback (alerts : List FrontAlert) (alertId : String)
    (feedback : Option Feedback) : List FrontAlert :=
  alerts.map fun alert =>
    if alert.id = alertId then { alert with feedback := feedback } else alert

/-- acknowledgeAlert from AlertContext: map over the alerts, setting status
acknowledged and stamping acknowledgedBy/acknowledgedAt on the alerts whose
id matches.  The wall-clock string produced by the code is passed as now. -/
def acknowledgeAlert (alerts : List FrontAlert) (alertId userId now : String) :
    List FrontAlert :=
  alerts.map fun alert =>
    if alert.id = alertId then
      { alert with
          status := AlertStatus.acknowledged
          acknowledgedBy := some userId
          acknowledgedAt := some now }
    else alert

/-- dismissAlert from AlertContext: identical to acknowledgeAlert except the
status written is dismissed. -/
def dismissAlert (alerts : List FrontAlert) (alertId userId now : String) :
    List FrontAlert :=
  alerts.map fun alert =>
    if alert.id = alertId then
      { alert with
          status := AlertStatus.dismissed
          acknowledgedBy := some userId
          acknowledgedAt := some now }
    else alert

/-- Lifecycle status of an AlertManager alert (design document section 4.4). -/
inductive AMStatus
  | fresh
  | reviewed
  | monitoring
  | actionTaken
  | dismissed
deriving DecidableEq, Repr

/-- A status is non-terminal unless it is dismissed. -/
def nonTerminal (s : AMStatus) : Bool :=
  match s with
  | AMStatus.dismissed => false
  | _ => true

/-- Modelled from the spec: an AlertManager alert, since the AlertManager
implementation is not in the repository sources (only its trigger
pseudocode in the README). -/
structure AMAlert where
  id : ℕ
  patientId : String
  severity : RiskLevel
  status : AMStatus
  autoGenerated : Bool
  snapshotLevel : RiskLevel
deriving DecidableEq, Repr

/-- The alert store together with the id counter for created alerts. -/
structure AMState where
  alerts : List AMAlert
  nextId : ℕ
deriving DecidableEq, Repr

/-- The empty alert store. -/
def initAMState : AMState :=
  ⟨[], 0⟩

/-- Whether an alert belongs to the patient and is in a non-terminal status. -/
def activeFor (pid : String) (a : AMAlert) : Bool :=
  decide (a.patientId = pid) && nonTerminal a.status

/-- Number of non-terminal alerts of one patient in the store. -/
def countNonTerminal (st : AMState) (pid : String) : ℕ :=
  st.alerts.countP (activeFor pid)

/-- The deduplication check of the README trigger logic: is there an active
(non-terminal) alert for the patient. -/
def hasActiveAlertFor (st : AMState) (pid : String) : Bool :=
  st.alerts.any (activeFor pid)

/-- Clinician actions driving the AlertManager state machine. -/
inductive ClinicianAction
  | review
  | monitor
  | takeAction
  | dismiss
deriving DecidableEq, Repr

/-- Modelled from the spec: the transition table of section 4.4 - fresh to
reviewed, reviewed to monitoring or actionTaken, those plus fresh to
dismissed; any other pair leaves the status unchanged. -/
def applyAction (s : AMStatus) (act : ClinicianAction) : AMStatus :=
  match s, act with
  | AMStatus.fresh, ClinicianAction.review => AMStatus.reviewed
  | AMStatus.fresh, ClinicianAction.dismiss => AMStatus.dismissed
  | AMStatus.reviewed, ClinicianAction.monitor => AMStatus.monitoring
  | AMStatus.reviewed, ClinicianAction.takeAction => AMStatus.actionTaken
  | AMStatus.monitoring, ClinicianAction.dismiss => AMStatus.dismissed
  | AMStatus.actionTaken, ClinicianAction.dismiss => AMStatus.dismissed
  | s, _ => s

/-- Modelled from the spec: the AlertManager reaction to a new risk
assessment (README trigger logic plus section 4.4) - on HIGH or CRITICAL,
create a fresh auto-generated alert when the patient has no active alert,
otherwise update the snapshot of the active alert when the new severity is
strictly higher; on lower levels do nothing. -/
def applyAssess (st : AMState) (pid : String) (level : RiskLevel) : AMState :=
  if level = RiskLevel.high ∨ level = RiskLevel.critical then
    if hasActiveAlertFor st pid then
      { st with
          alerts := st.alerts.map fun a =>
            if activeFor pid a && decide (getRiskWeight a.severity < getRiskWeight level)
            then { a with severity := level, snapshotLevel := level }
            else a }
    else
      { alerts := st.alerts ++ [⟨st.nextId, pid, level, AMStatus.fresh, true, level⟩]
        nextId := st.nextId + 1 }
  else st

/-- Modelled from the spec: a clinician action addressed to one alert id;
the transition table guards which transitions apply. -/
def applyClinician (st : AMState) (alertId : ℕ) (act : ClinicianAction) : AMState :=
  { st with
      alerts := st.alerts.map fun a =>
        if a.id = alertId then { a with status := applyAction a.status act } else a }

/-- An external event of the AlertManager: a risk computation producing a
level for one patient, or a clinician action addressed to one alert. -/
inductive AMEvent
  | assess (pid : String) (level : RiskLevel)
  | clinician (alertId : ℕ) (act : ClinicianAction)
deriving DecidableEq, Repr

/-- One step of the AlertManager. -/
def applyEvent (st : AMState) (e : AMEvent) : AMState :=
  match e with
  | AMEvent.assess pid level => applyAssess st pid level
  | AMEvent.clinician alertId act => applyClinician st alertId act

/-- The state reached from the empty store by a trace of events; the
reachable states of the alert store are exactly the values of this map. -/
def runEvents (events : List AMEvent) : AMState :=
  events.foldl applyEvent initAMState

/-- A run of consecutive risk computations for one patient, one per level in
the list, with no interleaved clinician action. -/
def assessRun (st : AMState) (pid : String) (levels : List RiskLevel) : AMState :=
  levels.foldl (fun s lv => applyAssess s pid lv) st

/-- A concrete alert taken from the mock data, used as witness input. -/
def sampleAlertOne : FrontAlert :=
  { id := "alert-1"
    patientId := "patient-1"
    patientName := "Raj Kumar"
    time := "2024-12-31T14:30:00Z"
    severity := RiskLevel.high
    title := "Elevated Metabolic Risk"
    explanation := "Blood glucose increased 29 percent over 18 months"
    drivers := [("Sustained glucose increase", "up 29 percent over 18 months")]
    status := AlertStatus.active
    feedback := none
    acknowledgedBy := none
    acknowledgedAt := none }

/-- A second concrete alert for a different patient, used as witness input. -/
def sampleAlertTwo : FrontAlert :=
  { id := "alert-2"
    patientId := "patient-3"
    patientName := "James Wilson"
    time := "2024-12-31T18:45:00Z"
    severity := RiskLevel.critical
    title := "Sepsis Risk - Immediate Attention"
    explanation := "Early sepsis pattern detected"
    drivers := [("Lactate spike", "up 133 percent in 6h")]
    status := AlertStatus.active
    feedback := none
    acknowledgedBy := none
    acknowledgedAt := none }

/-- The monotone step functions folded by calculateRiskScore never decrease
the accumulator. -/
theorem foldl_cond_add_le {α : Type} (c : ℤ) (hc : 0 ≤ c) (p : α → Bool) :
    ∀ (l : List α) (init : ℤ),
      init ≤ l.foldl (fun s a => if p a then s + c else s) init := by
  intro l
  induction l with
  | nil => intro init; exact le_refl init
  | cons x xs ih =>
      intro init
      simp only [List.foldl_cons]
      by_cases hx : p x
      · simp only [hx, if_true]
        exact le_trans (by linarith) (ih (init + c))
      · simp only [hx, if_false]
        exact ih init

/-- The risk score of calculateRiskScore always lies between 20 and 100. -/
theorem calculateRiskScore_score_bounds (vitals : List VitalReading)
    (labs : List LabResult) :
    20 ≤ (calculateRiskScore vitals labs).1 ∧ (calculateRiskScore vitals labs).1 ≤ 100 := by
  unfold calculateRiskScore
  simp only
  constructor
  · have h1 : (20 : ℤ) ≤ vitals.foldl
        (fun s v => if isAbnormal v.value v.normalRange then s + 15 else s) 20 :=
      foldl_cond_add_le 15 (by norm_num) _ vitals 20
    have h2 := foldl_cond_add_le 20 (by norm_num)
        (fun l => isAbnormal l.value l.normalRange) labs
        (vitals.foldl (fun s v => if isAbnormal v.value v.normalRange then s + 15 else s) 20)
    exact le_min (by norm_num) (le_trans h1 h2)
  · exact min_le_left _ _

/-- The level assignment of riskLevelOfScore matches the half-open interval
table LOW [0,40), MEDIUM [40,60), HIGH [60,80), CRITICAL [80,100] on scores
within [0,100]. -/
theorem riskLevelOfScore_table (s : ℤ) (h0 : 0 ≤ s) (h100 : s ≤ 100) :
    (riskLevelOfScore s = RiskLevel.low ↔ 0 ≤ s ∧ s < 40) ∧
    (riskLevelOfScore s = RiskLevel.medium ↔ 40 ≤ s ∧ s < 60) ∧
    (riskLevelOfScore s = RiskLevel.high ↔ 60 ≤ s ∧ s < 80) ∧
    (riskLevelOfScore s = RiskLevel.critical ↔ 80 ≤ s ∧ s ≤ 100) := by
  unfold riskLevelOfScore
  split_ifs with h1 h2 h3 <;> refine ⟨?_, ?_, ?_, ?_⟩ <;> simp <;> omega

/-- The level of calculateRiskScore is riskLevelOfScore of its score. -/
theorem calculateRiskScore_snd (vitals : List VitalReading) (labs : List LabResult) :
    (calculateRiskScore vitals labs).2 = riskLevelOfScore (calculateRiskScore vitals labs).1 :=
  rfl

/-- C1 counterexample: two abnormal vitals give score 50; the code maps 50
to medium while the claimed 30/50/70 table (0-100 scale) maps it to high. -/
theorem riskLevel_spec_table_counterexample :
    (calculateRiskScore [⟨200, ⟨0, 100⟩⟩, ⟨200, ⟨0, 100⟩⟩] []).1 = 50 ∧
    (calculateRiskScore [⟨200, ⟨0, 100⟩⟩, ⟨200, ⟨0, 100⟩⟩] []).2 = RiskLevel.medium ∧
    specRiskLevelTable 50 = RiskLevel.high ∧
    (calculateRiskScore [⟨200, ⟨0, 100⟩⟩, ⟨200, ⟨0, 100⟩⟩] []).2 ≠
      specRiskLevelTable (calculateRiskScore [⟨200, ⟨0, 100⟩⟩, ⟨200, ⟨0, 100⟩⟩] []).1 := by
  refine ⟨?_, ?_, ?_, ?_⟩ <;> decide

/-- C1 (amended): for every computed risk assessment the discrete risk level
is determined from the risk score by the fixed boundary table LOW [0,40),
MEDIUM [40,60), HIGH [60,80), CRITICAL [80,100] on the 0-100 scale, each
boundary inclusive on the lower bound. -/
theorem riskLevel_code_boundary_table (vitals : List VitalReading) (labs : List LabResult) :
    ((calculateRiskScore vitals labs).2 = RiskLevel.low ↔
      0 ≤ (calculateRiskScore vitals labs).1 ∧ (calculateRiskScore vitals labs).1 < 40) ∧
    ((calculateRiskScore vitals labs).2 = RiskLevel.medium ↔
      40 ≤ (calculateRiskScore vitals labs).1 ∧ (calculateRiskScore vitals labs).1 < 60) ∧
    ((calculateRiskScore vitals labs).2 = RiskLevel.high ↔
      60 ≤ (calculateRiskScore vitals labs).1 ∧ (calculateRiskScore vitals labs).1 < 80) ∧
    ((calculateRiskScore vitals labs).2 = RiskLevel.critical ↔
      80 ≤ (calculateRiskScore vitals labs).1 ∧ (calculateRiskScore vitals labs).1 ≤ 100) := by
  have hb := calculateRiskScore_score_bounds vitals labs
  rw [calculateRiskScore_snd]
  exact riskLevelOfScore_table _ (by linarith [hb.1]) hb.2

/-- Witness for the amended C1 table at a concrete input: the empty input
scores 20, which the table places in the LOW interval. -/
theorem riskLevel_code_boundary_table_witness :
    0 ≤ (calculateRiskScore [] []).1 ∧ (calculateRiskScore [] []).1 < 40 :=
  (riskLevel_code_boundary_table [] []).1.mp (by decide)

/-- C8 counterexample: with no readings the code computes risk score 20,
which does not lie in the unit interval [0,1]. -/
theorem riskScore_not_in_unit_interval :
    (calculateRiskScore [] []).1 = 20 ∧ ¬ (calculateRiskScore [] []).1 ≤ 1 := by
  refine ⟨?_, ?_⟩ <;> decide

/-- C8 (amended): for all inputs the computed risk score lies in [0,100],
the 0-100 scale the code works on (divided by 100 it lies in [0,1]). -/
theorem riskScore_bounds_0_100 (vitals : List VitalReading) (labs : List LabResult) :
    0 ≤ (calculateRiskScore vitals labs).1 ∧ (calculateRiskScore vitals labs).1 ≤ 100 := by
  obtain ⟨h1, h2⟩ := calculateRiskScore_score_bounds vitals labs
  exact ⟨by linarith, h2⟩

/-- Witness for the amended C8 bounds at a concrete input. -/
theorem riskScore_bounds_0_100_witness :
    0 ≤ (calculateRiskScore [⟨200, ⟨0, 100⟩⟩] []).1 ∧
      (calculateRiskScore [⟨200, ⟨0, 100⟩⟩] []).1 ≤ 100 :=
  riskScore_bounds_0_100 [⟨200, ⟨0, 100⟩⟩] []

/-- The average used by the claim over the projected score list equals the
average of the consecutive deltas computed by calculateVelocity. -/
theorem specAvgChange_map_score (h : List RiskPoint) :
    specAvgChange (h.map RiskPoint.score) =
      (List.zipWith (fun a b => b.score - a.score) (h.drop (h.length - 5))
        (h.drop (h.length - 5)).tail).sum /
      ((List.zipWith (fun a b => b.score - a.score) (h.drop (h.length - 5))
        (h.drop (h.length - 5)).tail).length : ℚ) := by
  unfold specAvgChange
  simp only [List.length_map, ← List.map_drop, ← List.map_tail, List.zipWith_map]

/-- C2: on histories with at least 2 entries, calculateVelocity returns
exactly the category prescribed by the claim (average of the consecutive
deltas of at most the last five scores against the 0.10 / 0.03 / -0.03
thresholds), and the history 0.45, 0.50, 0.55, 0.60, 0.65 is classified
slowly_worsening. -/
theorem calculateVelocity_matches_spec :
    (∀ h : List RiskPoint, 2 ≤ h.length →
       calculateVelocity h = specVelocityClass (h.map RiskPoint.score)) ∧
    calculateVelocity
        [⟨45/100, 0⟩, ⟨50/100, 1⟩, ⟨55/100, 2⟩, ⟨60/100, 3⟩, ⟨65/100, 4⟩] =
      RiskVelocity.slowly_worsening := by
  constructor
  · intro h hlen
    have hnot : ¬ h.length < 2 := by omega
    simp only [calculateVelocity, specVelocityClass, hnot, if_false,
      specAvgChange_map_score h]
    set avg :=
      (List.zipWith (fun a b => b.score - a.score) (h.drop (h.length - 5))
        (h.drop (h.length - 5)).tail).sum /
      ((List.zipWith (fun a b => b.score - a.score) (h.drop (h.length - 5))
        (h.drop (h.length - 5)).tail).length : ℚ) with havg
    by_cases hc1 : avg > 1/10
    · simp only [if_pos hc1]
    · simp only [if_neg hc1]
      by_cases hc2 : avg > 3/100
      · have hc3 : 3/100 < avg ∧ avg ≤ 1/10 := ⟨hc2, by linarith⟩
        simp only [if_pos hc2, if_pos hc3]
      · have hc3 : ¬ (3/100 < avg ∧ avg ≤ 1/10) := fun hx => hc2 hx.1
        simp only [if_neg hc2, if_neg hc3]
  · unfold calculateVelocity
    norm_num [List.zipWith, List.sum]

/-- Witness for C2 at a concrete history of length 2: the code and the
claimed classifier agree on it. -/
theorem calculateVelocity_matches_spec_witness :
    calculateVelocity [⟨1/2, 0⟩, ⟨3/4, 1⟩] =
      specVelocityClass ([⟨1/2, 0⟩, ⟨3/4, 1⟩].map RiskPoint.score) :=
  calculateVelocity_matches_spec.1 [⟨1/2, 0⟩, ⟨3/4, 1⟩] (by decide)

/-- C3 counterexample: on the length-1 history the code returns stable, not
the unknown member of the indicator vocabulary. -/
theorem calculateVelocity_single_point_counterexample :
    calculateVelocity [⟨1/2, 0⟩] = RiskVelocity.stable ∧
    toVelocityCategory (calculateVelocity [⟨1/2, 0⟩]) ≠ VelocityCategory.unknown := by
  refine ⟨?_, ?_⟩ <;> decide

/-- C3 (amended): for every history with fewer than 2 points,
calculateVelocity returns stable (its category type has no unknown member). -/
theorem calculateVelocity_short_history_stable (h : List RiskPoint)
    (hlen : h.length < 2) :
    calculateVelocity h = RiskVelocity.stable := by
  unfold calculateVelocity
  simp [hlen]

/-- Witness for the amended C3 at the length-1 history. -/
theorem calculateVelocity_short_history_stable_witness :
    calculateVelocity [⟨9/10, 3⟩] = RiskVelocity.stable :=
  calculateVelocity_short_history_stable [⟨9/10, 3⟩] (by decide)

/-- C5: percent change follows the (latest - earliest) / earliest x 100
formula, and a zero earliest value is guarded to 0 by the truthiness test,
with no error value anywhere (the function is total). -/
theorem percentChange_guarded (data : List DataPoint) :
    (firstValue data = 0 → percentChange data = 0) ∧
    (firstValue data ≠ 0 →
      percentChange data =
        (lastValue data - firstValue data) / firstValue data * 100) := by
  constructor
  · intro h
    unfold percentChange
    simp [h]
  · intro h
    unfold percentChange
    simp [h]

/-- Witness for C5: a series starting at value 0 gets percent change 0. -/
theorem percentChange_guarded_witness :
    percentChange [⟨⟨2023, 1⟩, 0⟩, ⟨⟨2023, 2⟩, 5⟩] = 0 :=
  (percentChange_guarded [⟨⟨2023, 1⟩, 0⟩, ⟨⟨2023, 2⟩, 5⟩]).1 rfl

/-- C6: on the PRD series 110 (Jan-2023), 118 (Jul-2023), 126 (Jan-2024),
142 (Jul-2024) the percent change is within 0.01 of 29.09, the direction is
UP under both the rendered arrow and the sign rule, the duration is 18
whole months and the trend is persistent. -/
theorem prdSeries_trend_features :
    |percentChange prdSeries - 2909/100| < 1/100 ∧
    timelineArrow prdSeries = TrendDirection.up ∧
    specDirection prdSeries = TrendDirection.up ∧
    durationMonths prdSeries = 18 ∧
    persistence prdSeries = true := by
  refine ⟨?_, ?_, ?_, ?_, ?_⟩
  · unfold percentChange firstValue lastValue prdSeries
    norm_num [List.getLast?]
    rw [show |(1 : ℚ)/1100| = 1/1100 from abs_of_pos (by norm_num)]
    norm_num
  · decide
  · decide
  · decide
  · decide

/-- C7 counterexample: on a series whose first and last values are equal the
chart reports a DOWN arrow, while the claimed sign rule reports FLAT. -/
theorem timelineArrow_equal_values_counterexample :
    timelineArrow [⟨⟨2023, 1⟩, 100⟩, ⟨⟨2023, 2⟩, 100⟩] = TrendDirection.down ∧
    specDirection [⟨⟨2023, 1⟩, 100⟩, ⟨⟨2023, 2⟩, 100⟩] = TrendDirection.flat ∧
    timelineArrow [⟨⟨2023, 1⟩, 100⟩, ⟨⟨2023, 2⟩, 100⟩] ≠
      specDirection [⟨⟨2023, 1⟩, 100⟩, ⟨⟨2023, 2⟩, 100⟩] := by
  refine ⟨?_, ?_, ?_⟩ <;> decide

/-- C7 (amended): the reported trend direction is UP exactly when the latest
value strictly exceeds the earliest, and DOWN in every other case, the
equal case included; FLAT is never reported. -/
theorem timelineArrow_up_or_down (data : List DataPoint) :
    (timelineArrow data = TrendDirection.up ↔ firstValue data < lastValue data) ∧
    (timelineArrow data = TrendDirection.down ↔ lastValue data ≤ firstValue data) ∧
    timelineArrow data ≠ TrendDirection.flat := by
  by_cases h : lastValue data > firstValue data
  · simp [timelineArrow, isIncreasing, h]
  · simp [timelineArrow, isIncreasing, h]
    linarith

/-- Witness for the amended C7 at a strictly increasing concrete series. -/
theorem timelineArrow_up_or_down_witness :
    timelineArrow [⟨⟨2023, 1⟩, 1⟩, ⟨⟨2023, 2⟩, 2⟩] = TrendDirection.up :=
  (timelineArrow_up_or_down [⟨⟨2023, 1⟩, 1⟩, ⟨⟨2023, 2⟩, 2⟩]).1.mpr (by decide)

/-- C9: setFeedback keeps the collection length, leaves every alert with a
different id untouched, and on the matching alert replaces only the
feedback field (the record-update equality fixes every other field, the
status included). -/
theorem setFeedback_frame (alerts : List FrontAlert) (alertId : String)
    (fb : Option Feedback) :
    (setFeedback alerts alertId fb).length = alerts.length ∧
    ∀ i a, alerts.get? i = some a →
      (a.id ≠ alertId → (setFeedback alerts alertId fb).get? i = some a) ∧
      (a.id = alertId → (setFeedback alerts alertId fb).get? i =
        some { a with feedback := fb }) := by
  constructor
  · simp [setFeedback]
  · intro i a ha
    constructor
    · intro hne
      unfold setFeedback
      rw [List.get?_map, ha]
      simp [hne]
    · intro heq
      unfold setFeedback
      rw [List.get?_map, ha]
      simp [heq]

/-- Witness for C9: on a concrete two-alert store, feedback lands on the
matching alert and the other alert is returned unchanged. -/
theorem setFeedback_frame_witness :
    (setFeedback [sampleAlertOne, sampleAlertTwo] "alert-1"
        (some Feedback.useful)).get? 1 = some sampleAlertTwo ∧
    (setFeedback [sampleAlertOne, sampleAlertTwo] "alert-1"
        (some Feedback.useful)).get? 0 =
      some { sampleAlertOne with feedback := some Feedback.useful } :=
  ⟨((setFeedback_frame [sampleAlertOne, sampleAlertTwo] "alert-1"
      (some Feedback.useful)).2 1 sampleAlertTwo rfl).1 (by decide),
   ((setFeedback_frame [sampleAlertOne, sampleAlertTwo] "alert-1"
      (some Feedback.useful)).2 0 sampleAlertOne rfl).2 rfl⟩

/-- C10: acknowledgeAlert and dismissAlert keep the collection length, leave
every alert with a different id untouched, on the matching alert change
exactly the status, acknowledgedBy and acknowledgedAt fields, and when no
alert carries the given id they return the collection exactly as it was. -/
theorem acknowledge_dismiss_frame (alerts : List FrontAlert)
    (alertId userId now : String) :
    (acknowledgeAlert alerts alertId userId now).length = alerts.length ∧
    (dismissAlert alerts alertId userId now).length = alerts.length ∧
    (∀ i a, alerts.get? i = some a →
      (a.id ≠ alertId →
        (acknowledgeAlert alerts alertId userId now).get? i = some a ∧
        (dismissAlert alerts alertId userId now).get? i = some a) ∧
      (a.id = alertId →
        (acknowledgeAlert alerts alertId userId now).get? i =
          some { a with
                   status := AlertStatus.acknowledged
                   acknowledgedBy := some userId
                   acknowledgedAt := some now } ∧
        (dismissAlert alerts alertId userId now).get? i =
          some { a with
                   status := AlertStatus.dismissed
                   acknowledgedBy := some userId
                   acknowledgedAt := some now })) ∧
    ((∀ a ∈ alerts, a.id ≠ alertId) →
      acknowledgeAlert alerts alertId userId now = alerts ∧
      dismissAlert alerts alertId userId now = alerts) := by
  refine ⟨by simp [acknowledgeAlert], by simp [dismissAlert], ?_, ?_⟩
  · intro i a ha
    constructor
    · intro hne
      constructor
      · unfold acknowledgeAlert
        rw [List.get?_map, ha]
        simp [hne]
      · unfold dismissAlert
        rw [List.get?_map, ha]
        simp [hne]
    · intro heq
      constructor
      · unfold acknowledgeAlert
        rw [List.get?_map, ha]
        simp [heq]
      · unfold dismissAlert
        rw [List.get?_map, ha]
        simp [heq]
  · intro hnone
    constructor
    · unfold acknowledgeAlert
      have h2 : alerts.map (fun alert =>
          if alert.id = alertId then
            { alert with
                status := AlertStatus.acknowledged
                acknowledgedBy := some userId
                acknowledgedAt := some now }
          else alert) = alerts.map id :=
        List.map_congr_left (fun a hmem => by simp [hnone a hmem])
      simpa using h2
    · unfold dismissAlert
      have h2 : alerts.map (fun alert =>
          if alert.id = alertId then
            { alert with
                status := AlertStatus.dismissed
                acknowledgedBy := some userId
                acknowledgedAt := some now }
          else alert) = alerts.map id :=
        List.map_congr_left (fun a hmem => by simp [hnone a hmem])
      simpa using h2

/-- Witness for C10: on a concrete two-alert store an id that matches no
alert leaves the store exactly as it was, for both operations. -/
theorem acknowledge_dismiss_frame_witness :
    acknowledgeAlert [sampleAlertOne, sampleAlertTwo] "missing-id" "user-1"
        "2025-01-01T00:00:00Z" = [sampleAlertOne, sampleAlertTwo] ∧
    dismissAlert [sampleAlertOne, sampleAlertTwo] "missing-id" "user-1"
        "2025-01-01T00:00:00Z" = [sampleAlertOne, sampleAlertTwo] :=
  (acknowledge_dismiss_frame [sampleAlertOne, sampleAlertTwo] "missing-id"
    "user-1" "2025-01-01T00:00:00Z").2.2.2 (by decide)

/-- A clinician transition never turns a terminal status non-terminal. -/
theorem nonTerminal_applyAction (s : AMStatus) (act : ClinicianAction) :
    nonTerminal (applyAction s act) = true → nonTerminal s = true := by
  cases s <;> cases act <;> simp [applyAction, nonTerminal]

/-- A clinician action cannot increase the number of non-terminal alerts of
any patient. -/
theorem countNonTerminal_applyClinician_le (st : AMState) (alertId : ℕ)
    (act : ClinicianAction) (pid : String) :
    countNonTerminal (applyClinician st alertId act) pid ≤ countNonTerminal st pid := by
  unfold countNonTerminal applyClinician
  dsimp only
  rw [List.countP_map]
  refine List.countP_mono_left ?_
  intro a _ ha
  by_cases hid : a.id = alertId
  · simp only [Function.comp, hid, if_true] at ha
    unfold activeFor at ha ⊢
    obtain ⟨h1, h2⟩ := Bool.and_eq_true_iff.mp ha
    exact Bool.and_eq_true_iff.mpr ⟨h1, nonTerminal_applyAction a.status act h2⟩
  · simpa [Function.comp, hid] using ha

/-- The re-escalation map of applyAssess changes neither the owner nor the
status of any alert, so membership in the active set is untouched. -/
theorem activeFor_escalation (pid qid : String) (level : RiskLevel) (a : AMAlert) :
    activeFor qid
      (if activeFor pid a && decide (getRiskWeight a.severity < getRiskWeight level)
       then { a with severity := level, snapshotLevel := level }
       else a) = activeFor qid a := by
  by_cases hc : (activeFor pid a && decide (getRiskWeight a.severity < getRiskWeight level)) = true
  · rw [if_pos hc]
    unfold activeFor
    rfl
  · rw [if_neg hc]

/-- A risk computation preserves the at-most-one-active-alert bound for
every patient. -/
theorem inv_preserved_applyAssess (st : AMState) (pid : String) (level : RiskLevel)
    (hInv : ∀ q, countNonTerminal st q ≤ 1) :
    ∀ q, countNonTerminal (applyAssess st pid level) q ≤ 1 := by
  intro q
  unfold applyAssess
  by_cases hlv : level = RiskLevel.high ∨ level = RiskLevel.critical
  · rw [if_pos hlv]
    by_cases hact : hasActiveAlertFor st pid = true
    · rw [if_pos hact]
      unfold countNonTerminal
      dsimp only
      rw [List.countP_map]
      refine le_trans (List.countP_mono_left ?_) (hInv q)
      intro a _ ha
      have := activeFor_escalation pid q level a
      simp only [Function.comp] at ha
      rw [this] at ha
      exact ha
    · rw [if_neg hact]
      unfold countNonTerminal
      dsimp only
      rw [List.countP_append]
      by_cases hq : q = pid
      · subst hq
        have hfalse : hasActiveAlertFor st q = false := by
          cases hval : hasActiveAlertFor st q
          · rfl
          · exact absurd hval hact
        have hzero : st.alerts.countP (activeFor q) = 0 := by
          rw [List.countP_eq_zero]
          exact List.any_eq_false.mp hfalse
        rw [hzero]
        simp [activeFor, nonTerminal]
      · have hone : [(⟨st.nextId, pid, level, AMStatus.fresh, true, level⟩ : AMAlert)].countP
            (activeFor q) = 0 := by
          simp [List.countP_cons, activeFor, nonTerminal, hq]
          intro hc
          exact absurd hc.symm hq
        rw [hone]
        simpa using hInv q
  · rw [if_neg hlv]
    exact hInv q

/-- A HIGH or CRITICAL risk computation leaves the patient with exactly one
non-terminal alert: it creates one when none is active and deduplicates
otherwise. -/
theorem countNonTerminal_applyAssess_eq_one (st : AMState) (pid : String)
    (level : RiskLevel) (hcnt : countNonTerminal st pid ≤ 1)
    (hlv : level = RiskLevel.high ∨ level = RiskLevel.critical) :
    countNonTerminal (applyAssess st pid level) pid = 1 := by
  unfold applyAssess
  rw [if_pos hlv]
  by_cases hact : hasActiveAlertFor st pid = true
  · rw [if_pos hact]
    unfold countNonTerminal
    dsimp only
    rw [List.countP_map]
    have hsame : (st.alerts.map fun a =>
        if activeFor pid a && decide (getRiskWeight a.severity < getRiskWeight level)
        then { a with severity := level, snapshotLevel := level }
        else a).countP (activeFor pid) = st.alerts.countP (activeFor pid) := by
      rw [List.countP_map]
      refine Nat.le_antisymm (List.countP_mono_left ?_) (List.countP_mono_left ?_)
      · intro a _ ha
        have := activeFor_escalation pid pid level a
        simp only [Function.comp] at ha
        rw [this] at ha
        exact ha
      · intro a _ ha
        have := activeFor_escalation pid pid level a
        simp only [Function.comp]
        rw [this]
        exact ha
    rw [List.countP_map] at hsame
    rw [hsame]
    have hpos : 0 < st.alerts.countP (activeFor pid) := by
      rw [List.countP_pos_iff]
      exact List.any_eq_true.mp hact
    have hle : st.alerts.countP (activeFor pid) ≤ 1 := hcnt
    omega
  · rw [if_neg hact]
    unfold countNonTerminal
    dsimp only
    rw [List.countP_append]
    have hfalse : hasActiveAlertFor st pid = false := by
      cases hval : hasActiveAlertFor st pid
      · rfl
      · exact absurd hval hact
    have hzero : st.alerts.countP (activeFor pid) = 0 := by
      rw [List.countP_eq_zero]
      exact List.any_eq_false.mp hfalse
    rw [hzero]
    simp [activeFor, nonTerminal]

/-- Every event of the AlertManager preserves the at-most-one bound. -/
theorem inv_preserved_applyEvent (st : AMState) (e : AMEvent)
    (hInv : ∀ q, countNonTerminal st q ≤ 1) :
    ∀ q, countNonTerminal (applyEvent st e) q ≤ 1 := by
  cases e with
  | assess pid level => exact inv_preserved_applyAssess st pid level hInv
  | clinician alertId act =>
      intro q
      exact le_trans (countNonTerminal_applyClinician_le st alertId act q) (hInv q)

/-- The at-most-one bound is preserved along any event trace. -/
theorem inv_foldl_events (events : List AMEvent) :
    ∀ st : AMState, (∀ q, countNonTerminal st q ≤ 1) →
      ∀ q, countNonTerminal (events.foldl applyEvent st) q ≤ 1 := by
  induction events with
  | nil => intro st h; exact h
  | cons e es ih =>
      intro st h
      exact ih (applyEvent st e) (inv_preserved_applyEvent st e h)

/-- A non-empty run of HIGH/CRITICAL computations for one patient, starting
from any state satisfying the bound, ends with exactly one non-terminal
alert for that patient. -/
theorem count_assessRun_eq_one (pid : String) (levels : List RiskLevel) :
    ∀ st : AMState, countNonTerminal st pid ≤ 1 → levels ≠ [] →
      (∀ lv ∈ levels, lv = RiskLevel.high ∨ lv = RiskLevel.critical) →
      countNonTerminal (assessRun st pid levels) pid = 1 := by
  induction levels with
  | nil => intro st _ hne _; exact absurd rfl hne
  | cons lv rest ih =>
      intro st hcnt _ hall
      have h1 : countNonTerminal (applyAssess st pid lv) pid = 1 :=
        countNonTerminal_applyAssess_eq_one st pid lv hcnt (hall lv (by simp))
      by_cases hrest : rest = []
      · subst hrest
        simpa [assessRun] using h1
      · have h2 := ih (applyAssess st pid lv) (le_of_eq h1) hrest
          (fun l hl => hall l (by simp [hl]))
        simpa [assessRun] using h2

/-- C4: in every state reachable by a trace of AlertManager events, every
patient has at most one alert in a non-terminal status; and any non-empty
run of consecutive HIGH/CRITICAL risk computations for one patient, with no
interleaved clinician action, leaves exactly one non-terminal alert for
that patient. -/
theorem alertManager_dedup_invariant :
    (∀ (events : List AMEvent) (pid : String),
       countNonTerminal (runEvents events) pid ≤ 1) ∧
    (∀ (events : List AMEvent) (pid : String) (levels : List RiskLevel),
       levels ≠ [] →
       (∀ lv ∈ levels, lv = RiskLevel.high ∨ lv = RiskLevel.critical) →
       countNonTerminal (assessRun (runEvents events) pid levels) pid = 1) := by
  have hinit : ∀ q, countNonTerminal initAMState q ≤ 1 := by
    intro q
    simp [countNonTerminal, initAMState]
  have hrun : ∀ (events : List AMEvent) (q : String),
      countNonTerminal (runEvents events) q ≤ 1 :=
    fun events q => inv_foldl_events events initAMState hinit q
  refine ⟨hrun, ?_⟩
  intro events pid levels hne hall
  exact count_assessRun_eq_one pid levels (runEvents events) (hrun events pid) hne hall

/-- Witness for C4: a concrete trace with one clinician dismissal respects
the bound, and three consecutive HIGH/CRITICAL computations starting from
the empty store leave exactly one non-terminal alert. -/
theorem alertManager_dedup_invariant_witness :
    countNonTerminal
        (runEvents [AMEvent.assess "patient-1" RiskLevel.high,
                    AMEvent.clinician 0 ClinicianAction.dismiss]) "patient-1" ≤ 1 ∧
    countNonTerminal
        (assessRun (runEvents []) "patient-1"
          [RiskLevel.high, RiskLevel.high, RiskLevel.critical]) "patient-1" = 1 :=
  ⟨alertManager_dedup_invariant.1
      [AMEvent.assess "patient-1" RiskLevel.high,
       AMEvent.clinician 0 ClinicianAction.dismiss] "patient-1",
   alertManager_dedup_invariant.2 [] "patient-1"
      [RiskLevel.high, RiskLevel.high, RiskLevel.critical] (by decide) (by decide)⟩
